import Mathlib

/-!
Verification development for the r-bustub storage engine core.

Shallow embedding of the Rust sources:
  src/buffer/replacer.rs               (LRUReplacer)
  src/storage/pages/page.rs            (Page)
  src/buffer/buffer_pool_manager.rs    (BufferPoolManager, ParallelBufferPoolManager)
  src/storage/pages/hash_table_directory_page.rs
  src/storage/pages/hash_table_bucket_page.rs
  src/container/extendible_hash_table.rs

Machine integers are modelled with Nat; wrap-around is written out explicitly
where the source uses `as u32` or overflowing arithmetic on a path a theorem
touches.  Fallible operations (Rust panics: `unwrap`, index out of bounds,
unsigned underflow under checked arithmetic) are modelled with
`Except RtError`.
-/

/-- Runtime failures of the Rust code (panics), as an explicit error type. -/
inductive RtError : Type where
  /-- `Option::unwrap` on `None`. -/
  | unwrapNone : RtError
  /-- `pin_count -= 1` on `pin_count == 0` (checked unsigned underflow). -/
  | pinCountUnderflow : RtError
  /-- the `panic!` in `delete_page` for a pinned page. -/
  | deletePinned : RtError
  /-- array index out of bounds. -/
  | indexOutOfBounds : RtError
  /-- recursion-depth fuel exhausted in the model of the recursive `insert`. -/
  | outOfFuel : RtError
deriving DecidableEq

/-- `Option::unwrap`, as a fallible operation. -/
def unwrapO {α : Type} : Option α → Except RtError α
  | some a => Except.ok a
  | none => Except.error RtError.unwrapNone

/-- `PAGE_SIZE` from src/storage/disk/disk_manager.rs. -/
def PAGE_SIZE : Nat := 4096

/-- The disk manager's backing file: page id to page bytes.  Models the
`DiskManager` trait (positioned page-granular reads and writes). -/
abbrev Disk : Type := List (Nat × List Nat)

/-- `DiskManager::write_page`: store the bytes at the page id (overwriting). -/
def diskWritePage (d : Disk) (page_id : Nat) (bytes : List Nat) : Disk :=
  (page_id, bytes) :: d.filter (fun p => p.1 ≠ page_id)

/-- `DiskManager::read_page`: bytes at the page id; unwritten pages read as
zero-filled (the spec leaves the tail unspecified; zero matches a fresh file). -/
def diskReadPage (d : Disk) (page_id : Nat) : List Nat :=
  (d.lookup page_id).getD (List.replicate PAGE_SIZE 0)

/-- src/storage/pages/page.rs `Page`.  `data` is the `Align4096` payload
(byte list); the `Arc<RwLock<..>>` sharing is modelled by returning the
current contents wherever the source hands out the `Data` handle. -/
structure Page : Type where
  pageId : Option Nat
  isDirty : Bool
  pinCount : Nat
  data : List Nat
deriving DecidableEq

/-- `Page::new()`: no page id, clean, unpinned, zeroed payload. -/
def Page.new : Page :=
  { pageId := none, isDirty := false, pinCount := 0,
    data := List.replicate PAGE_SIZE 0 }

/-- src/buffer/replacer.rs `LRUReplacer`.  The linked list of evictable
frames in unpin order; the cursor index is an O(1)-removal device and is
not part of the abstract state. -/
structure LRUReplacer : Type where
  container : List Nat
deriving DecidableEq

namespace LRUReplacer

/-- `LRUReplacer::new`. -/
def new : LRUReplacer := { container := [] }

/-- `victim`: pop the front (least recently unpinned); absent when empty. -/
def victim (r : LRUReplacer) : Option (Nat × LRUReplacer) :=
  match r.container with
  | [] => none
  | f :: rest => some (f, { container := rest })

/-- `pin`: remove the frame from tracking when present, else no-op. -/
def pin (r : LRUReplacer) (frame_id : Nat) : LRUReplacer :=
  { container := r.container.erase frame_id }

/-- `unpin`: push the frame at the back. -/
def unpin (r : LRUReplacer) (frame_id : Nat) : LRUReplacer :=
  { container := r.container ++ [frame_id] }

/-- `size`: number of tracked frames. -/
def size (r : LRUReplacer) : Nat := r.container.length

end LRUReplacer

/-- src/buffer/buffer_pool_manager.rs `BufferPoolManager`.  Stacks backed by
`Vec` (free list, deleted page ids) are kept head-first: `Vec::push` is cons
and `Vec::pop` takes the head.  The shared `Arc<DiskManager>` is embedded as
the `disk` component. -/
structure BufferPoolManager : Type where
  pool_size : Nat
  num_instances : Nat
  instance_index : Nat
  deleted_page_ids : List Nat
  next_page_id : Nat
  replacer : LRUReplacer
  frames : List Page
  page_table : List (Nat × Nat)
  free_list : List Nat
  disk : Disk
deriving DecidableEq

namespace BufferPoolManager

/-- Page-table lookup (`HashMap::get`). -/
def ptLookup (pt : List (Nat × Nat)) (page_id : Nat) : Option Nat :=
  pt.lookup page_id

/-- Page-table removal (`HashMap::remove`). -/
def ptRemove (pt : List (Nat × Nat)) (page_id : Nat) : List (Nat × Nat) :=
  pt.filter (fun p => p.1 ≠ page_id)

/-- Page-table insertion (`HashMap::insert`). -/
def ptInsert (pt : List (Nat × Nat)) (page_id frame_id : Nat) : List (Nat × Nat) :=
  (page_id, frame_id) :: ptRemove pt page_id

/-- `self.frames[frame_id]` (in bounds in every use by the source). -/
def getFrame (s : BufferPoolManager) (frame_id : Nat) : Page :=
  (s.frames.get? frame_id).getD Page.new

/-- Write back `self.frames[frame_id] = page`. -/
def setFrame (s : BufferPoolManager) (frame_id : Nat) (page : Page) :
    BufferPoolManager :=
  { s with frames := s.frames.set frame_id page }

/-- `BufferPoolManager::new`: all frames free, `next_page_id = instance_index`
(the `as u32` cast written out). -/
def new (pool_size num_instances instance_index : Nat) (disk : Disk) :
    BufferPoolManager :=
  { pool_size := pool_size
    num_instances := num_instances
    instance_index := instance_index
    deleted_page_ids := []
    next_page_id := instance_index % 2 ^ 32
    replacer := LRUReplacer.new
    frames := List.replicate pool_size Page.new
    page_table := []
    free_list := (List.range pool_size).reverse
    disk := disk }

/-- `alloc_frame`: pop the free list; if empty, ask the replacer for a victim. -/
def alloc_frame (s : BufferPoolManager) : Option (Nat × BufferPoolManager) :=
  match s.free_list with
  | frame_id :: rest => some (frame_id, { s with free_list := rest })
  | [] =>
    match s.replacer.victim with
    | none => none
    | some (frame_id, r) => some (frame_id, { s with replacer := r })

/-- `alloc_page_id`: reuse a deleted id, else advance `next_page_id` by
`num_instances` (u32 arithmetic). -/
def alloc_page_id (s : BufferPoolManager) : Nat × BufferPoolManager :=
  match s.deleted_page_ids with
  | page_id :: rest => (page_id, { s with deleted_page_ids := rest })
  | [] =>
    (s.next_page_id,
     { s with next_page_id :=
         (s.next_page_id + s.num_instances % 2 ^ 32) % 2 ^ 32 })

/-- `fetch_page`.  Returns the `Data` handle contents paired with the
successor state; `Except.ok (none, s)` is the source's `None` return.
Note the miss path asks `self.replacer.victim()` directly (it does not call
`alloc_frame`). -/
def fetch_page (s : BufferPoolManager) (page_id : Nat) :
    Except RtError (Option (List Nat) × BufferPoolManager) :=
  match ptLookup s.page_table page_id with
  | some frame_id =>
    let s1 := { s with replacer := s.replacer.pin frame_id }
    let page := getFrame s1 frame_id
    let page := { page with pinCount := page.pinCount + 1 }
    Except.ok (some page.data, setFrame s1 frame_id page)
  | none =>
    match s.replacer.victim with
    | none => Except.ok (none, s)
    | some (victim_frame_id, r) =>
      let s1 := { s with replacer := r.pin victim_frame_id }
      let victim_page := getFrame s1 victim_frame_id
      do
      let s2 ←
        if victim_page.isDirty then do
          let vpid ← unwrapO victim_page.pageId
          pure { s1 with disk := diskWritePage s1.disk vpid victim_page.data }
        else pure s1
      let old_pid ← unwrapO victim_page.pageId
      let pt2 := ptInsert (ptRemove s2.page_table old_pid) page_id victim_frame_id
      let s3 := { s2 with page_table := pt2 }
      let victim_page :=
        { victim_page with
            pinCount := 1
            isDirty := false
            pageId := some page_id
            data := diskReadPage s3.disk page_id }
      Except.ok (some victim_page.data, setFrame s3 victim_frame_id victim_page)

/-- `unpin_page`: look the page up (`unwrap`), decrement the pin count
(checked), hand the frame to the replacer when the count reaches zero, and
apply the monotonic-OR dirty update `if !page.is_dirty { set(is_dirty) }`. -/
def unpin_page (s : BufferPoolManager) (page_id : Nat) (is_dirty : Bool) :
    Except RtError BufferPoolManager :=
  match ptLookup s.page_table page_id with
  | none => Except.error RtError.unwrapNone
  | some frame_id =>
    let page := getFrame s frame_id
    match page.pinCount with
    | 0 => Except.error RtError.pinCountUnderflow
    | Nat.succ n =>
      let page := { page with pinCount := n }
      let s1 := if n = 0 then { s with replacer := s.replacer.unpin frame_id } else s
      let page := if !page.isDirty then { page with isDirty := is_dirty } else page
      Except.ok (setFrame s1 frame_id page)

/-- `flush_page`: look the page up (`unwrap`); write back when dirty (the
dirty bit is left unchanged). -/
def flush_page (s : BufferPoolManager) (page_id : Nat) :
    Except RtError BufferPoolManager :=
  match ptLookup s.page_table page_id with
  | none => Except.error RtError.unwrapNone
  | some frame_id =>
    let page := getFrame s frame_id
    if page.isDirty then
      Except.ok { s with disk := diskWritePage s.disk page_id page.data }
    else Except.ok s

/-- `new_page`: `alloc_frame`; allocate a fresh id; write back a dirty victim;
drop its page-table entry if any; install the new id pinned, dirty, zeroed. -/
def new_page (s : BufferPoolManager) :
    Except RtError (Option (Nat × List Nat) × BufferPoolManager) :=
  match alloc_frame s with
  | none => Except.ok (none, s)
  | some (victim_frame_id, s1) =>
    let (new_page_id, s2) := alloc_page_id s1
    let victim_page := getFrame s2 victim_frame_id
    do
    let s3 ←
      if victim_page.isDirty then do
        let vpid ← unwrapO victim_page.pageId
        pure { s2 with disk := diskWritePage s2.disk vpid victim_page.data }
      else pure s2
    let s4 :=
      match victim_page.pageId with
      | some victim_page_id =>
        { s3 with page_table := ptRemove s3.page_table victim_page_id }
      | none => s3
    let s5 := { s4 with page_table := ptInsert s4.page_table new_page_id victim_frame_id }
    let victim_page :=
      { victim_page with
          pageId := some new_page_id
          isDirty := true
          pinCount := 1
          data := List.replicate PAGE_SIZE 0 }
    let s6 := setFrame s5 victim_frame_id victim_page
    let s7 := { s6 with replacer := s6.replacer.pin victim_frame_id }
    Except.ok (some (new_page_id, victim_page.data), s7)

/-- `delete_page`: panic when the page is resident and pinned; remove a
resident unpinned page from the page table, return its frame to the free
list and its id to `deleted_page_ids`; silently return when non-resident.
(The replacer is not touched.) -/
def delete_page (s : BufferPoolManager) (page_id : Nat) :
    Except RtError BufferPoolManager :=
  match ptLookup s.page_table page_id with
  | some frame_id =>
    if 0 < (getFrame s frame_id).pinCount then
      Except.error RtError.deletePinned
    else
      Except.ok
        { s with free_list := frame_id :: s.free_list,
                 page_table := ptRemove s.page_table page_id,
                 deleted_page_ids := page_id :: s.deleted_page_ids }
  | none => Except.ok s

end BufferPoolManager

/-- src/buffer/buffer_pool_manager.rs `ParallelBufferPoolManager`.  The
`Arc<Mutex<..>>` cells are embedded as the instances list; `start_index` is
the atomic rotation counter. -/
structure ParallelBufferPoolManager : Type where
  num_instances : Nat
  pool_size : Nat
  instances : List BufferPoolManager
  start_index : Nat
deriving DecidableEq

namespace ParallelBufferPoolManager

/-- `ParallelBufferPoolManager::new`.  The source's constructor loop is
`for i in 0..pool_size`, so that is the number of instances built. -/
def new (num_instances pool_size : Nat) (disk : Disk) :
    ParallelBufferPoolManager :=
  { num_instances := num_instances
    pool_size := pool_size
    instances :=
      (List.range pool_size).map
        (fun i => BufferPoolManager.new pool_size num_instances i disk)
    start_index := 0 }

/-- `get_instance`: `instances[page_id % num_instances]`. -/
def get_instance (p : ParallelBufferPoolManager) (page_id : Nat) :
    Option BufferPoolManager :=
  p.instances.get? (page_id % p.num_instances)

end ParallelBufferPoolManager

/-- `DIRECTORY_ARRAY_SIZE` from src/storage/pages/hash_table_directory_page.rs. -/
def DIRECTORY_ARRAY_SIZE : Nat := 512

/-- src/storage/pages/hash_table_directory_page.rs `HashTableDirectoryPage`.
`local_depth` and `page_ids` are the two 512-entry arrays (`u8` and `PageId`
values as Nat); the padding bytes are not part of the abstract state. -/
structure HashTableDirectoryPage : Type where
  page_id : Nat
  global_depth : Nat
  local_depth : List Nat
  page_ids : List Nat
deriving DecidableEq

namespace HashTableDirectoryPage

/-- `get_local_depth`: `self.local_depth[index]`, panicking out of bounds. -/
def get_local_depth (d : HashTableDirectoryPage) (index : Nat) :
    Except RtError Nat :=
  if index < DIRECTORY_ARRAY_SIZE then Except.ok (d.local_depth.getD index 0)
  else Except.error RtError.indexOutOfBounds

/-- `set_local_depth`: `self.local_depth[index] = v`, panicking out of bounds. -/
def set_local_depth (d : HashTableDirectoryPage) (index v : Nat) :
    Except RtError HashTableDirectoryPage :=
  if index < DIRECTORY_ARRAY_SIZE then
    Except.ok { d with local_depth := d.local_depth.set index v }
  else Except.error RtError.indexOutOfBounds

/-- `get_bucket_page_id`: `self.page_ids[index]`, panicking out of bounds. -/
def get_bucket_page_id (d : HashTableDirectoryPage) (index : Nat) :
    Except RtError Nat :=
  if index < DIRECTORY_ARRAY_SIZE then Except.ok (d.page_ids.getD index 0)
  else Except.error RtError.indexOutOfBounds

/-- `set_bucket_page_id`: `self.page_ids[index] = pid`, panicking out of bounds. -/
def set_bucket_page_id (d : HashTableDirectoryPage) (index page_id : Nat) :
    Except RtError HashTableDirectoryPage :=
  if index < DIRECTORY_ARRAY_SIZE then
    Except.ok { d with page_ids := d.page_ids.set index page_id }
  else Except.error RtError.indexOutOfBounds

/-- `increase_global_depth`: `self.global_depth += 1` (no capacity check). -/
def increase_global_depth (d : HashTableDirectoryPage) :
    HashTableDirectoryPage :=
  { d with global_depth := d.global_depth + 1 }

/-- `increase_local_depth`: `self.local_depth[bucket_index] += 1`. -/
def increase_local_depth (d : HashTableDirectoryPage) (bucket_index : Nat) :
    Except RtError HashTableDirectoryPage :=
  do
  let v ← d.get_local_depth bucket_index
  d.set_local_depth bucket_index (v + 1)

end HashTableDirectoryPage

/-- src/storage/pages/hash_table_bucket_page.rs `InertResult` (source name). -/
inductive InertResult : Type where
  | Success : InertResult
  | Duplicate : InertResult
  | Full : InertResult
deriving DecidableEq

/-- src/storage/pages/hash_table_bucket_page.rs `HashTableBucketPage`,
instantiated at `K = V = Nat`.  The `readable` byte-array bitmap is
abstracted to one `Bool` per slot; `kvs` is the slot array (length
`Tool::KV_NUM`). -/
structure HashTableBucketPage : Type where
  readable : List Bool
  kvs : List (Nat × Nat)
deriving DecidableEq

namespace HashTableBucketPage

/-- `is_readable`: bit `index` of the occupancy bitmap. -/
def is_readable (b : HashTableBucketPage) (index : Nat) : Bool :=
  b.readable.getD index false

/-- Slot `i` of `kvs` (in bounds in every use; default mirrors zeroed bytes). -/
def kvAt (b : HashTableBucketPage) (index : Nat) : Nat × Nat :=
  b.kvs.getD index (0, 0)

/-- `get_value`: values of readable slots whose key matches, in slot order. -/
def get_value (b : HashTableBucketPage) (key : Nat) : List Nat :=
  ((List.range b.kvs.length).filter
     (fun i => b.is_readable i && (b.kvAt i).1 == key)).map
    (fun i => (b.kvAt i).2)

/-- `insert`: refuse an exact (key,value) duplicate in a readable slot; else
write at the smallest unreadable slot, or report `Full` when none exists. -/
def insert (b : HashTableBucketPage) (key value : Nat) :
    InertResult × HashTableBucketPage :=
  if (List.range b.kvs.length).any
       (fun i => b.is_readable i && b.kvAt i == (key, value)) then
    (InertResult.Duplicate, b)
  else
    match (List.range b.kvs.length).find? (fun i => !(b.is_readable i)) with
    | none => (InertResult.Full, b)
    | some i =>
      (InertResult.Success,
       { b with readable := b.readable.set i true, kvs := b.kvs.set i (key, value) })

/-- `remove`: clear the readable bit of the first matching slot; report
whether a slot matched.  Data bytes are left in place. -/
def remove (b : HashTableBucketPage) (key value : Nat) :
    Bool × HashTableBucketPage :=
  match (List.range b.kvs.length).find?
          (fun i => b.is_readable i && b.kvAt i == (key, value)) with
  | none => (false, b)
  | some i => (true, { b with readable := b.readable.set i false })

end HashTableBucketPage

/-- Abstract state of the extendible hash table's pages.  The byte-cast
views onto buffer-pool frames (src/container/extendible_hash_table.rs uses
`cast_ref`/`cast_mut` on `Data` handles shared through `Arc`) are embedded
as the typed page contents directly: the directory page and a map from
bucket page id to bucket page content.  `nextPid` models the page ids
handed out by `new_page_blocking` (fresh, zero-filled pages). -/
structure EHTState : Type where
  dir : HashTableDirectoryPage
  buckets : List (Nat × HashTableBucketPage)
  nextPid : Nat
deriving DecidableEq

/-- src/container/extendible_hash_table.rs `EHTContext` (the `Data` handles
alias the pages held in `EHTState`, so only the scalar fields remain). -/
structure EHTContext : Type where
  local_depth : Nat
  bucket_pid : Nat
  bucket_index : Nat
deriving DecidableEq

namespace ExtendibleHashTable

/-- The bucket page stored at a page id (present in every use). -/
def getBucket (s : EHTState) (page_id : Nat) : HashTableBucketPage :=
  (s.buckets.lookup page_id).getD { readable := [], kvs := [] }

/-- Overwrite the bucket page stored at a page id (the `Arc`-shared frame). -/
def updateBucket (bs : List (Nat × HashTableBucketPage)) (page_id : Nat)
    (b : HashTableBucketPage) : List (Nat × HashTableBucketPage) :=
  bs.map (fun p => if p.1 = page_id then (page_id, b) else p)

/-- A zero-filled bucket page as produced by `new_page_blocking` (all
readable bits clear, all slots zero), with `kv_num` slots. -/
def emptyBucket (kv_num : Nat) : HashTableBucketPage :=
  { readable := List.replicate kv_num false
    kvs := List.replicate kv_num (0, 0) }

/-- `key_to_index`: `hash(key) & ((1 << global_depth) - 1)`, written as a
remainder.  `hash_fn` stands for the pluggable hasher. -/
def key_to_index (hash_fn : Nat → Nat) (d : HashTableDirectoryPage)
    (key : Nat) : Nat :=
  hash_fn key % 2 ^ d.global_depth

/-- The indices `start, start+step, ...` strictly below `stop`
(`(start..stop).step_by(step)` with `step > 0`). -/
def stepIndices (start stop step : Nat) : List Nat :=
  List.range' start ((stop - start + step - 1) / step) step

/-- The redistribution loop shared by both split routines: `KV_NUM`
iterations; when `skip` holds the iteration is a `continue`, otherwise the
*inserted* `(key, value)` pair is inserted into the new bucket and removed
from the old one.  (The loop never looks at the stored slots' keys.) -/
def redistribute (kv_num : Nat) (skip : Bool) (key value : Nat)
    (new_bucket old_bucket : HashTableBucketPage) :
    HashTableBucketPage × HashTableBucketPage :=
  (List.range kv_num).foldl
    (fun p _ =>
      if skip then p
      else ((p.1.insert key value).2, (p.2.remove key value).2))
    (new_bucket, old_bucket)

/-- `bucket_split_dir_double` (`local_depth == global_depth`): increment the
global depth and the slot's local depth, replicate the old directory half
into the upper half, point slot `bucket_index + num_buckets_before` at a new
page with local depth `context.local_depth` (the un-incremented value, as
the source passes it), then run the redistribution loop, whose skip
condition hashes the inserted key against `bucket_index` under the already
incremented global depth. -/
def bucket_split_dir_double (hash_fn : Nat → Nat) (kv_num : Nat)
    (s : EHTState) (key value : Nat) (context : EHTContext) :
    Except RtError EHTState :=
  do
  let dir := s.dir.increase_global_depth
  let dir ← dir.increase_local_depth context.bucket_index
  let num_buckets_before := 2 ^ dir.global_depth / 2
  let dir ← (List.range num_buckets_before).foldlM
    (fun d i => do
      let pid ← d.get_bucket_page_id i
      let d ← d.set_bucket_page_id (num_buckets_before + i) pid
      let ld ← d.get_local_depth i
      d.set_local_depth (num_buckets_before + i) ld)
    dir
  let new_page_id := s.nextPid
  let dir ← dir.set_bucket_page_id (context.bucket_index + num_buckets_before) new_page_id
  let dir ← dir.set_local_depth (context.bucket_index + num_buckets_before)
    context.local_depth
  let skip := key_to_index hash_fn dir key == context.bucket_index
  let (new_bucket, old_bucket) :=
    redistribute kv_num skip key value (emptyBucket kv_num) (getBucket s context.bucket_pid)
  Except.ok
    { dir := dir
      buckets := (new_page_id, new_bucket) ::
        updateBucket s.buckets context.bucket_pid old_bucket
      nextPid := s.nextPid + 1 }

/-- `bucket_split_dir_same` (`local_depth < global_depth`): increment the
slot's local depth; with `num_buckets = (1 << global_depth) / 2` and
`start = num_buckets / 2 + bucket_index % cycle`, repoint the directory
slots `start, start+cycle, ... < num_buckets` at a new page with local
depth `old + 1`; then run the redistribution loop, whose skip condition is
`key_to_index key < num_buckets / 2`.  (The source also computes an unused
`index_in_place`.) -/
def bucket_split_dir_same (hash_fn : Nat → Nat) (kv_num : Nat)
    (s : EHTState) (key value : Nat) (context : EHTContext) :
    Except RtError EHTState :=
  do
  let cycle := 2 ^ context.local_depth
  let dir ← s.dir.increase_local_depth context.bucket_index
  let num_buckets := 2 ^ dir.global_depth / 2
  let start := num_buckets / 2 + context.bucket_index % cycle
  let new_page_id := s.nextPid
  let dir ← (stepIndices start num_buckets cycle).foldlM
    (fun d i => do
      let d ← d.set_bucket_page_id i new_page_id
      d.set_local_depth i (context.local_depth + 1))
    dir
  let skip := key_to_index hash_fn dir key < num_buckets / 2
  let (new_bucket, old_bucket) :=
    redistribute kv_num skip key value (emptyBucket kv_num) (getBucket s context.bucket_pid)
  Except.ok
    { dir := dir
      buckets := (new_page_id, new_bucket) ::
        updateBucket s.buckets context.bucket_pid old_bucket
      nextPid := s.nextPid + 1 }

/-- `bucket_split`: choose the doubling case iff
`context.local_depth == global_depth`. -/
def bucket_split (hash_fn : Nat → Nat) (kv_num : Nat) (s : EHTState)
    (key value : Nat) (context : EHTContext) : Except RtError EHTState :=
  if context.local_depth = s.dir.global_depth then
    bucket_split_dir_double hash_fn kv_num s key value context
  else
    bucket_split_dir_same hash_fn kv_num s key value context

/-- `get_context` (scalar part): directory index, bucket page id and local
depth for the key. -/
def get_context (hash_fn : Nat → Nat) (s : EHTState) (key : Nat) :
    Except RtError EHTContext :=
  do
  let bucket_index := key_to_index hash_fn s.dir key
  let bucket_pid ← s.dir.get_bucket_page_id bucket_index
  let ld ← s.dir.get_local_depth bucket_index
  Except.ok { local_depth := ld, bucket_pid := bucket_pid, bucket_index := bucket_index }

/-- `insert`: attempt the bucket insert; on `Full`, split and re-enter.
The source recursion has no structural bound, so the model carries fuel;
`RtError.outOfFuel` is never reached on the inputs the theorems use. -/
def insertF (hash_fn : Nat → Nat) (kv_num : Nat) :
    Nat → EHTState → Nat → Nat → Except RtError (Bool × EHTState)
  | 0, _, _, _ => Except.error RtError.outOfFuel
  | fuel + 1, s, key, value =>
    do
    let context ← get_context hash_fn s key
    let bucket := getBucket s context.bucket_pid
    let (result, bucket2) := bucket.insert key value
    match result with
    | InertResult.Success =>
      Except.ok (true, { s with buckets := updateBucket s.buckets context.bucket_pid bucket2 })
    | InertResult.Duplicate => Except.ok (false, s)
    | InertResult.Full =>
      do
      let s2 ← bucket_split hash_fn kv_num s key value context
      insertF hash_fn kv_num fuel s2 key value

end ExtendibleHashTable

/-! ## Properties of the buffer pool instance -/

/-- Reading back the frame just written (frame id in bounds). -/
theorem getFrame_setFrame (s : BufferPoolManager) (f : Nat) (p : Page)
    (h : f < s.frames.length) : (s.setFrame f p).getFrame f = p := by
  simp [BufferPoolManager.getFrame, BufferPoolManager.setFrame,
    List.getElem?_set_eq_of_lt, h]

/-- C8: for a resident page with positive pin count, `unpin_page(pid, d)`
leaves the frame's dirty flag equal to the old flag OR `d`; in particular
`unpin_page(pid, false)` never clears an already-set dirty bit. -/
theorem unpin_page_dirty_monotonic_or (s : BufferPoolManager) (pid : Nat)
    (d : Bool) (fid : Nat)
    (h1 : BufferPoolManager.ptLookup s.page_table pid = some fid)
    (h2 : 0 < (s.getFrame fid).pinCount)
    (h3 : fid < s.frames.length) :
    (s.unpin_page pid d).map (fun t => (t.getFrame fid).isDirty) =
      Except.ok ((s.getFrame fid).isDirty || d) := by
  obtain ⟨n, hn⟩ : ∃ n, (s.getFrame fid).pinCount = n + 1 :=
    ⟨(s.getFrame fid).pinCount - 1, (Nat.succ_pred_eq_of_pos h2).symm⟩
  by_cases hn0 : n = 0 <;> cases hd : (s.getFrame fid).isDirty <;>
    simp [BufferPoolManager.unpin_page, h1, hn, hn0, hd, Except.map,
      getFrame_setFrame, h3]

/-- C8 witness: a concrete one-frame pool, page 0 resident dirty with pin
count 2; unpinning clean keeps the dirty bit. -/
theorem unpin_page_dirty_monotonic_or_witness :
    ((({ pool_size := 1, num_instances := 1, instance_index := 0,
         deleted_page_ids := [], next_page_id := 1,
         replacer := { container := [] },
         frames := [{ pageId := some 0, isDirty := true, pinCount := 2, data := [] }],
         page_table := [(0, 0)], free_list := [], disk := [] } :
        BufferPoolManager).unpin_page 0 false).map
        (fun t => (t.getFrame 0).isDirty)) =
      Except.ok
        ((({ pool_size := 1, num_instances := 1, instance_index := 0,
             deleted_page_ids := [], next_page_id := 1,
             replacer := { container := [] },
             frames := [{ pageId := some 0, isDirty := true, pinCount := 2, data := [] }],
             page_table := [(0, 0)], free_list := [], disk := [] } :
            BufferPoolManager).getFrame 0).isDirty || false) :=
  unpin_page_dirty_monotonic_or _ 0 false 0 rfl (by decide) (by decide)

/-- C9: `unpin_page` on a resident page whose frame already has
`pin_count = 0` hits the unguarded unsigned decrement: it is a panic
(underflow), not a no-op. -/
theorem unpin_page_zero_pin_underflows (s : BufferPoolManager) (pid : Nat)
    (d : Bool) (fid : Nat)
    (h1 : BufferPoolManager.ptLookup s.page_table pid = some fid)
    (h2 : (s.getFrame fid).pinCount = 0) :
    s.unpin_page pid d = Except.error RtError.pinCountUnderflow := by
  simp [BufferPoolManager.unpin_page, h1, h2]

/-- C9 witness: a concrete one-frame pool with page 0 resident at pin count
0; unpinning panics. -/
theorem unpin_page_zero_pin_underflows_witness :
    ({ pool_size := 1, num_instances := 1, instance_index := 0,
       deleted_page_ids := [], next_page_id := 1,
       replacer := { container := [0] },
       frames := [{ pageId := some 0, isDirty := false, pinCount := 0, data := [] }],
       page_table := [(0, 0)], free_list := [], disk := [] } :
      BufferPoolManager).unpin_page 0 true =
      Except.error RtError.pinCountUnderflow :=
  unpin_page_zero_pin_underflows _ 0 true 0 rfl rfl

/-- C10: `delete_page` on a page id absent from the page table returns
normally and leaves the whole state unchanged (page table, free list,
replacer, frames, next_page_id, deleted_page_ids, disk). -/
theorem delete_page_not_resident_noop (s : BufferPoolManager) (pid : Nat)
    (h : BufferPoolManager.ptLookup s.page_table pid = none) :
    s.delete_page pid = Except.ok s := by
  simp [BufferPoolManager.delete_page, h]

/-- C10 witness: deleting the non-resident page id 9 from a concrete pool
returns the pool unchanged. -/
theorem delete_page_not_resident_noop_witness :
    ({ pool_size := 1, num_instances := 1, instance_index := 0,
       deleted_page_ids := [4], next_page_id := 1,
       replacer := { container := [0] },
       frames := [{ pageId := some 0, isDirty := false, pinCount := 0, data := [] }],
       page_table := [(0, 0)], free_list := [], disk := [] } :
      BufferPoolManager).delete_page 9 =
      Except.ok
        { pool_size := 1, num_instances := 1, instance_index := 0,
          deleted_page_ids := [4], next_page_id := 1,
          replacer := { container := [0] },
          frames := [{ pageId := some 0, isDirty := false, pinCount := 0, data := [] }],
          page_table := [(0, 0)], free_list := [], disk := [] } :=
  delete_page_not_resident_noop _ 9 rfl

/-- C1: on a freshly constructed one-frame pool the free list is nonempty
and the replacer is empty, yet a fetch miss returns absent — the miss path
asks the replacer directly and never pops the free list (it does not call
`alloc_frame`). -/
theorem fetch_page_fresh_miss_returns_absent :
    (BufferPoolManager.new 1 1 0 []).free_list = [0] ∧
    (BufferPoolManager.new 1 1 0 []).replacer.container = [] ∧
    (BufferPoolManager.new 1 1 0 []).fetch_page 7 =
      Except.ok (none, BufferPoolManager.new 1 1 0 []) :=
  ⟨rfl, rfl, rfl⟩

/-- C2: `ParallelBufferPoolManager::new(1, 2, ..)` builds `pool_size = 2`
instances, not `num_instances = 1`; instance 1 allocates page id 1, and
`get_instance` routes page id 1 to instance 0 (index `1 % 1 = 0`), not to
its allocator. -/
theorem parallel_new_builds_pool_size_instances :
    (ParallelBufferPoolManager.new 1 2 []).instances.length = 2 ∧
    ((ParallelBufferPoolManager.new 1 2 []).instances.get? 1).map
        (fun b => b.instance_index) = some 1 ∧
    ((ParallelBufferPoolManager.new 1 2 []).instances.get? 1).map
        (fun b => (b.alloc_page_id).1) = some 1 ∧
    ((ParallelBufferPoolManager.new 1 2 []).get_instance 1).map
        (fun b => b.instance_index) = some 0 :=
  ⟨rfl, rfl, rfl, rfl⟩

/-- The reachable three-step run behind C3: on a fresh one-frame pool,
`new_page` (pins frame 0), then `unpin_page` (hands frame 0 to the
replacer), then `delete_page` (pushes frame 0 onto the free list). -/
def bpmDeleteTrace : Except RtError BufferPoolManager :=
  do
  let r1 ← (BufferPoolManager.new 1 1 0 []).new_page
  let s2 ← r1.2.unpin_page 0 false
  s2.delete_page 0

/-- Frame sets named by the partition invariant: the free list and the
replacer's tracked frames have no common member. -/
def freeReplacerDisjointB (s : BufferPoolManager) : Bool :=
  s.free_list.all (fun f => !(s.replacer.container.contains f))

/-- C3: after `new_page; unpin_page; delete_page` on a fresh one-frame
pool, frame 0 sits in the free list AND is still tracked by the replacer
(`delete_page` never removes it), so the free/replacer/pinned partition of
frames is violated in a reachable state. -/
theorem delete_page_breaks_frame_partition :
    bpmDeleteTrace.map (fun s => (s.free_list, s.replacer.container)) =
      Except.ok ([0], [0]) ∧
    bpmDeleteTrace.map freeReplacerDisjointB = Except.ok false :=
  ⟨rfl, rfl⟩

/-! ## Properties of the extendible hash table -/

set_option maxRecDepth 40000 in
/-- C4: the split's redistribution loop filters on the *inserted* key, not
on each stored slot's key.  Concretely (identity hash, two-slot buckets,
`global_depth = 0`): the old bucket holds (0,10) and (3,13), the insert of
(1,100) overflows it, and after `bucket_split_dir_double` the entry (3,13)
— whose one-bit-longer index is the new sibling — is still in the old
bucket, while the triggering pair (1,100) has been copied into the new
bucket by the split itself. -/
theorem split_redistributes_by_inserted_key :
    (ExtendibleHashTable.bucket_split_dir_double (fun n => n) 2
        { dir := { page_id := 0, global_depth := 0,
                   local_depth := List.replicate 512 0,
                   page_ids := (List.replicate 512 0).set 0 1 }
          buckets := [(1, { readable := [true, true], kvs := [(0, 10), (3, 13)] })]
          nextPid := 5 }
        1 100 { local_depth := 0, bucket_pid := 1, bucket_index := 0 }).map
      (fun s =>
        ((ExtendibleHashTable.getBucket s 1).get_value 0,
         (ExtendibleHashTable.getBucket s 1).get_value 3,
         (ExtendibleHashTable.getBucket s 5).get_value 3,
         (ExtendibleHashTable.getBucket s 5).get_value 1)) =
      Except.ok ([10], [13], [], [100]) :=
  rfl

set_option maxRecDepth 40000 in
/-- C5: no split path checks the directory capacity.  On a table with
`global_depth = 9` (all 512 slots at local depth 9 pointing at one full
bucket), a non-duplicate `insert` does not return false: it increments
`global_depth` to 10 and panics indexing directory slot 512 during the
upper-half copy. -/
theorem insert_beyond_depth_nine_panics :
    ExtendibleHashTable.insertF (fun n => n) 1 2
        { dir := { page_id := 0, global_depth := 9,
                   local_depth := List.replicate 512 9,
                   page_ids := List.replicate 512 2 }
          buckets := [(2, { readable := [true], kvs := [(5, 5)] })]
          nextPid := 30 }
        0 99 =
      Except.error RtError.indexOutOfBounds :=
  rfl

set_option maxRecDepth 40000 in
/-- C6: in a directory-unchanged split with `global_depth = 1`,
`local_depth = 0`, `bucket_index = 1` (slots 0 and 1 both point at bucket
page 7), the code repoints slot 0 to the new page (here 9) and leaves slot
1 on the old page — the opposite of the members of the progression whose
bit `old_local_depth` is 1.  Both slots do end at local depth 1. -/
theorem split_dir_same_repoints_wrong_slots :
    (ExtendibleHashTable.bucket_split_dir_same (fun n => n) 1
        { dir := { page_id := 0, global_depth := 1,
                   local_depth := List.replicate 512 0,
                   page_ids := ((List.replicate 512 0).set 0 7).set 1 7 }
          buckets := [(7, { readable := [true], kvs := [(1, 5)] })]
          nextPid := 9 }
        3 9 { local_depth := 0, bucket_pid := 7, bucket_index := 1 }).map
      (fun s =>
        (s.dir.page_ids.getD 0 0, s.dir.page_ids.getD 1 0,
         s.dir.local_depth.getD 0 0, s.dir.local_depth.getD 1 0)) =
      Except.ok (9, 7, 1, 1) :=
  rfl

set_option maxRecDepth 40000 in
/-- C7: in a directory-doubling split at `global_depth = 0` the sibling
slot `bucket_index + B = 1` is pointed at the new page (8) but its local
depth is written as `context.local_depth` — the OLD depth 0 — while slot 0
holds the incremented depth 1. -/
theorem split_dir_double_sibling_old_local_depth :
    (ExtendibleHashTable.bucket_split_dir_double (fun n => n) 2
        { dir := { page_id := 0, global_depth := 0,
                   local_depth := List.replicate 512 0,
                   page_ids := (List.replicate 512 0).set 0 3 }
          buckets := [(3, { readable := [true, true], kvs := [(0, 20), (2, 22)] })]
          nextPid := 8 }
        1 7 { local_depth := 0, bucket_pid := 3, bucket_index := 0 }).map
      (fun s =>
        (s.dir.global_depth, s.dir.page_ids.getD 1 0,
         s.dir.local_depth.getD 0 0, s.dir.local_depth.getD 1 0)) =
      Except.ok (1, 8, 1, 0) :=
  rfl
